import Mathlib

set_option autoImplicit false

/-!
Shallow embedding of `src/app.py` (Gemini AI Auto Tagger): a Streamlit tool
that generates keyword tags for media files via the Gemini API and writes
them into file metadata with ExifTool.

External effects (the remote AI service, the spawned `exiftool` process,
the filesystem) are modelled as explicit environments: each fallible Python
call becomes an `Except String _` field holding either the value it returned
or the `str(e)` of the exception it raised.  The unbounded polling loop is
modelled with explicit fuel: a `none` result means the loop had not exited
after that many iterations.
-/

namespace AutoTagger

/-- Python truthiness of an `Optional[str]` value: `None` and the empty
string are falsy, every other string is truthy (used by `if err:`). -/
def pyTruthy : Option String → Bool
  | none => false
  | some s => s ≠ ""

/-- Python string interpolation of an `Optional[str]`: `None` renders as
the four characters `None`. -/
def pyShowOpt : Option String → String
  | none => "None"
  | some s => s

/-- Python `str.strip()`: remove leading and trailing whitespace. -/
def pyStrip (s : String) : String :=
  ⟨((s.data.dropWhile Char.isWhitespace).reverse.dropWhile Char.isWhitespace).reverse⟩

/-- Python `str.lower()`: lowercase every character. -/
def pyLower (s : String) : String :=
  ⟨s.data.map Char.toLower⟩

/-- Python `str.endswith(suffix)` for a single suffix. -/
def pyEndsWith (s suffix : String) : Bool :=
  List.isSuffixOf suffix.data s.data

/-! ## Tag Generator: `get_tags_from_gemini` (src/app.py lines 14-41) -/

/-- Environment abstracting the remote Gemini service for one call to
`get_tags_from_gemini`.  Each `Except` value is either the Python call's
result or the string of the exception it raised. -/
structure GeminiEnv where
  /-- `genai.configure(api_key=...)`: unit result or exception text. -/
  configResult : Except String Unit
  /-- `genai.upload_file(...)`: the uploaded file's initial `state.name`,
  or exception text. -/
  uploadResult : Except String String
  /-- The i-th `genai.get_file(...)` re-poll inside the while loop: the
  refreshed `state.name`, or exception text. -/
  getFileResult : Nat → Except String String
  /-- `model.generate_content([prompt, sample_file]).text`, or exception
  text. -/
  generateResult : Except String String

/-- The `while sample_file.state.name == "PROCESSING"` polling loop,
starting from state `st` with `i` re-polls already issued.  `fuel` bounds
how many further loop iterations we are willing to unfold: `none` means
the state was still `PROCESSING` when the fuel ran out (the Python loop is
still running), `some (.error e)` means a `get_file` call raised, and
`some (.ok final)` is the state with which the loop exited. -/
def pollLoop (env : GeminiEnv) : Nat → String → Nat → Option (Except String String)
  | _, st, 0 => if st = "PROCESSING" then none else some (.ok st)
  | i, st, fuel + 1 =>
    if st = "PROCESSING" then
      match env.getFileResult i with
      | .error e => some (.error e)
      | .ok st' => pollLoop env (i + 1) st' fuel
    else
      some (.ok st)

/-- The list of `time.sleep(...)` durations issued by the polling loop
within the first `fuel` iterations (one sleep per iteration, before the
`get_file` re-poll). -/
def sleepTrace (env : GeminiEnv) : Nat → String → Nat → List Nat
  | _, _, 0 => []
  | i, st, fuel + 1 =>
    if st = "PROCESSING" then
      1 :: (match env.getFileResult i with
            | .error _ => []
            | .ok st' => sleepTrace env (i + 1) st' fuel)
    else
      []

/-- `get_tags_from_gemini(api_key, file_path)`: configure, upload, poll
until the state leaves `PROCESSING`, fail on `FAILED`, else generate and
return the stripped response text.  The whole body sits in a
`try/except Exception as e: return None, str(e)`.  Result `none` means the
polling loop had not exited within `fuel` iterations; `some (tags, err)`
is the Python return value. -/
def get_tags_from_gemini (env : GeminiEnv) (fuel : Nat) :
    Option (Option String × Option String) :=
  match env.configResult with
  | .error e => some (none, some e)
  | .ok _ =>
    match env.uploadResult with
    | .error e => some (none, some e)
    | .ok st0 =>
      match pollLoop env 0 st0 fuel with
      | none => none
      | some (.error e) => some (none, some e)
      | some (.ok finalSt) =>
        if finalSt = "FAILED" then
          some (none, some "Upload processing failed")
        else
          match env.generateResult with
          | .error e => some (none, some e)
          | .ok text => some (some (pyStrip text), none)

/-! ## Metadata Writer: `write_tags_securely` (src/app.py lines 43-99) -/

/-- The content of the temporary UTF-8 instruction file, as the
concatenation of the eight `f.write(...)` calls in source order. -/
def instructionContent (file_path : String) (tags : String) : String :=
  "-overwrite_original\n" ++
  "-m\n" ++
  "-charset\nutf8\n" ++
  "-sep\n, \n" ++
  ("-XPKeywords=" ++ tags ++ "\n") ++
  ("-Subject=" ++ tags ++ "\n") ++
  ("-Keywords=" ++ tags ++ "\n") ++
  (file_path ++ "\n")

/-- The argv list `["exiftool", "-@", args_file_path]` of the write-mode
invocation. -/
def writeCommand (args_file_path : String) : List String :=
  ["exiftool", "-@", args_file_path]

/-- Result of a completed `subprocess.run(..., capture_output=True)`. -/
structure ProcResult where
  returncode : Int
  stdout : String
  stderr : String

/-- Environment abstracting the filesystem and the spawned process for one
call to `write_tags_securely`. -/
structure WriteEnv where
  /-- `tempfile.NamedTemporaryFile(...)`: the created file's name, or
  exception text if creation itself raised. -/
  tempCreated : Except String String
  /-- The eight `f.write(...)` calls plus the implicit close of the
  `with` block: unit, or the exception text if one of them raised (in
  which case `args_file_path` is never assigned). -/
  writeOk : Except String Unit
  /-- `subprocess.run(command, ...)`: the completed process, or exception
  text if spawning raised. -/
  runResult : Except String ProcResult
  /-- `os.path.exists(args_file_path)` at cleanup time. -/
  tempExists : Bool
  /-- Whether `os.remove(args_file_path)` would succeed (its failure is
  swallowed by `except: pass`, so this never influences anything
  observable). -/
  removeOk : Bool

/-- Observable outcome of one `write_tags_securely` call: the returned
`(success, message)` pair plus ghost facts about its side effects. -/
structure WriteOutcome where
  /-- The `(bool, str)` pair the function returns. -/
  result : Bool × String
  /-- Whether the temporary instruction file was created on disk. -/
  fileCreated : Bool
  /-- The full instruction-file content, when all writes completed. -/
  instruction : Option String
  /-- The argv of the `subprocess.run` call, when one was issued. -/
  command : Option (List String)
  /-- Whether the `finally` block reached the `os.remove` call. -/
  removeAttempted : Bool

/-- `write_tags_securely(file_path, tags)`: serialize the directives into
a temporary UTF-8 instruction file, run `exiftool -@ <file>`, judge the
exit code, and in a `finally` block best-effort delete the temporary file
(only when `args_file_path` was assigned and the file still exists; a
deletion failure is swallowed). -/
def write_tags_securely (env : WriteEnv) (file_path : String) (tags : String) :
    WriteOutcome :=
  match env.tempCreated with
  | .error e =>
    { result := (false, e), fileCreated := false, instruction := none,
      command := none, removeAttempted := false }
  | .ok tempPath =>
    match env.writeOk with
    | .error e =>
      -- an exception inside the `with` block leaves `args_file_path = None`,
      -- so the `finally` block skips removal even though the file exists
      { result := (false, e), fileCreated := true, instruction := none,
        command := none, removeAttempted := false }
    | .ok _ =>
      let cleanup := env.tempExists
      match env.runResult with
      | .error e =>
        { result := (false, e), fileCreated := true,
          instruction := some (instructionContent file_path tags),
          command := some (writeCommand tempPath), removeAttempted := cleanup }
      | .ok r =>
        { result := if r.returncode = 0 then (true, "Success") else (false, r.stderr),
          fileCreated := true,
          instruction := some (instructionContent file_path tags),
          command := some (writeCommand tempPath), removeAttempted := cleanup }

/-! ## Folder clear: `remove_all_tags_in_folder` (src/app.py lines 115-150) -/

/-- The argv of the clear-mode invocation. -/
def clearCommand (folder_path : String) : List String :=
  ["exiftool", "-r", "-overwrite_original", "-m",
   "-XPKeywords=", "-Subject=", "-Keywords=", folder_path]

/-- Environment for one `remove_all_tags_in_folder` call. -/
structure ClearEnv where
  /-- `subprocess.run(command, ...)`: the completed process, or exception
  text. -/
  runResult : Except String ProcResult

/-- `remove_all_tags_in_folder(folder_path)`: run the recursive clear
invocation; exit code 0 returns `(True, stdout)`, otherwise
`(False, stderr)`; an exception returns `(False, str(e))`. -/
def remove_all_tags_in_folder (env : ClearEnv) (folder_path : String) :
    Bool × String :=
  let _ := folder_path
  match env.runResult with
  | .error e => (false, e)
  | .ok r => if r.returncode = 0 then (true, r.stdout) else (false, r.stderr)

/-! ## Per-File Worker: `process_single_file` (src/app.py lines 101-113) -/

/-- Result of one `process_single_file` call: the returned 4-tuple
`(filename, success, message, None)` (the reserved fourth slot is always
`None` and omitted), plus a ghost record of the `write_tags_securely`
invocation, if any. -/
structure WorkerResult where
  filename : String
  success : Bool
  /-- `message` is `tags` on success (an `Optional[str]` in Python), or a
  prefixed error string on failure. -/
  message : Option String
  /-- `some t` when `write_tags_securely` was invoked with tags value `t`;
  `none` when the Metadata Writer was never invoked. -/
  writerCalledWith : Option (Option String)

/-- `process_single_file(api_key, file_path)`, with the Tag Generator's
return value `gen = (tags, err)` and the Metadata Writer's return value
`writeRes` passed in explicitly: `if err:` fails with `AI Error: `,
otherwise the writer runs and a write failure is prefixed
`Write Error: `. -/
def process_single_file (filename : String)
    (gen : Option String × Option String) (writeRes : Bool × String) :
    WorkerResult :=
  if pyTruthy gen.2 then
    { filename := filename, success := false,
      message := some ("AI Error: " ++ pyShowOpt gen.2),
      writerCalledWith := none }
  else if writeRes.1 then
    { filename := filename, success := true, message := gen.1,
      writerCalledWith := some gen.1 }
  else
    { filename := filename, success := false,
      message := some ("Write Error: " ++ writeRes.2),
      writerCalledWith := some gen.1 }

/-! ## File filter and batch loop: tab 1 (src/app.py lines 180-226) -/

/-- A directory entry: `os.listdir` lists names of both regular files and
subdirectories, without distinguishing them. -/
inductive FsEntry where
  | file (name : String)
  | dir (name : String) (children : List FsEntry)

/-- The name of a directory entry. -/
def FsEntry.name : FsEntry → String
  | .file n => n
  | .dir n _ => n

/-- `os.listdir(target_folder)`: the names of the immediate entries of the
folder, non-recursively. -/
def listdir (entries : List FsEntry) : List String :=
  entries.map FsEntry.name

/-- The tuple `extensions = ('.jpg', '.jpeg', '.png', '.gif', '.mp4')`. -/
def extensions : List String :=
  [".jpg", ".jpeg", ".png", ".gif", ".mp4"]

/-- The filter `f.lower().endswith(extensions)`: Python `str.endswith`
with a tuple argument succeeds when any of the suffixes matches. -/
def eligible (f : String) : Bool :=
  extensions.any (fun ext => pyEndsWith (pyLower f) ext)

/-- The names an `os.listdir` of the folder dispatches to the thread pool:
`[f for f in os.listdir(target_folder) if f.lower().endswith(extensions)]`. -/
def dispatchedNames (entries : List FsEntry) : List String :=
  (listdir entries).filter eligible

/-- The batch loop: one `process_single_file` future per file, every
future drained with `future.result()`; no outcome is ever skipped or
aborted.  `as_completed` yields the outcomes in completion order, a
permutation of this submission-order list; the properties proved below
are order-independent. -/
def runBatch (worker : String → WorkerResult) (files : List String) :
    List WorkerResult :=
  files.map worker

/-- The UI log line built for one outcome in the `as_completed` loop. -/
def logMsg (r : WorkerResult) : String :=
  (if r.success then "✅ " else "❌ ") ++ r.filename ++ ": " ++ pyShowOpt r.message

/-- The evolution of the in-memory `logs` list over a batch:
`logs.insert(0, log_msg)` for each completed future, starting from `[]`.
The list itself is never truncated. -/
def logsAfter (msgs : List String) : List String :=
  msgs.foldl (fun logs m => m :: logs) []

/-- The text shown in the log area after each completion:
`"\n".join(logs[:20])` renders only the first (newest) 20 entries. -/
def displayedLog (logs : List String) : String :=
  String.intercalate "\n" (logs.take 20)

/-- Join a list of lines into a file body, a newline terminating each
line (the spec-side view of the instruction file as "one directive per
line"). -/
def joinLines (ls : List String) : String :=
  ls.foldr (fun l acc => l ++ "\n" ++ acc) ""

/-! ## Theorems -/

/-- C2: the instruction file written by the Metadata Writer consists of
exactly these newline-terminated lines, in this order: the overwrite flag,
the warning-suppression flag, the charset declaration (`utf8`), the
separator declaration, the three field assignments carrying the identical
unmodified tag string, and finally the target file path; the external tool
is invoked as `exiftool -@ <instruction-file>`. -/
theorem C2_instruction_file_exact (file_path tags : String) :
    instructionContent file_path tags =
      joinLines ["-overwrite_original", "-m", "-charset", "utf8", "-sep", ", ",
        "-XPKeywords=" ++ tags, "-Subject=" ++ tags, "-Keywords=" ++ tags,
        file_path]
    ∧ (∀ args_file, writeCommand args_file = ["exiftool", "-@", args_file]) := by
  refine ⟨?_, fun _ => rfl⟩
  have h1 : "-overwrite_original\n" = "-overwrite_original" ++ "\n" := rfl
  have h2 : "-m\n" = "-m" ++ "\n" := rfl
  have h3 : "-charset\nutf8\n" = "-charset" ++ "\n" ++ ("utf8" ++ "\n") := rfl
  have h4 : "-sep\n, \n" = "-sep" ++ "\n" ++ (", " ++ "\n") := rfl
  have h5 : ∀ s : String, s ++ "" = s := fun s => String.append_empty s
  rw [instructionContent, h1, h2, h3, h4]
  simp only [joinLines, List.foldr, String.append_assoc, h5]

/-- C1 counterexample: the Tag Generator can return `(None, "")` (an
exception whose `str` is empty, here raised during `genai.configure`);
`tags` is `None`, yet `if err:` is false on the empty string, so the
Per-File Worker invokes the Metadata Writer anyway and, if the write
succeeds, reports success — not a failure prefixed `AI Error: `. -/
theorem C1_counterexample :
    get_tags_from_gemini
        { configResult := .error "", uploadResult := .ok "ACTIVE",
          getFileResult := fun _ => .ok "ACTIVE", generateResult := .ok "x" } 0
      = some (none, some "")
    ∧ (process_single_file "a.jpg" (none, some "") (true, "Success")).writerCalledWith
        = some none
    ∧ (process_single_file "a.jpg" (none, some "") (true, "Success")).success = true :=
  ⟨rfl, rfl, rfl⟩

/-- C1 (amended): whenever the Tag Generator's error component is
Python-truthy (a non-empty string), the Per-File Worker returns a failure
whose message is the error prefixed `AI Error: ` and the Metadata Writer
is never invoked; whenever the error component is falsy (`None` or the
empty string), the Metadata Writer is invoked with the returned tags, a
successful write reports the tags, and a failed write is prefixed
`Write Error: `. -/
theorem C1_worker_stage_composition (filename : String)
    (gen : Option String × Option String) (writeRes : Bool × String) :
    (pyTruthy gen.2 = true →
      process_single_file filename gen writeRes =
        { filename := filename, success := false,
          message := some ("AI Error: " ++ pyShowOpt gen.2),
          writerCalledWith := none })
    ∧ (pyTruthy gen.2 = false →
        (process_single_file filename gen writeRes).writerCalledWith = some gen.1
        ∧ (writeRes.1 = true →
            process_single_file filename gen writeRes =
              { filename := filename, success := true, message := gen.1,
                writerCalledWith := some gen.1 })
        ∧ (writeRes.1 = false →
            process_single_file filename gen writeRes =
              { filename := filename, success := false,
                message := some ("Write Error: " ++ writeRes.2),
                writerCalledWith := some gen.1 })) := by
  constructor
  · intro h
    simp [process_single_file, h]
  · intro h
    refine ⟨?_, fun hw => ?_, fun hw => ?_⟩
    · cases hb : writeRes.1 <;> simp [process_single_file, h, hb]
    · simp [process_single_file, h, hw]
    · simp [process_single_file, h, hw]

/-- Closed instance of the amended C1 theorem at a concrete failing
generator result. -/
theorem C1_witness :
    pyTruthy (some "boom") = true
    ∧ process_single_file "x.png" (none, some "boom") (true, "Success") =
        { filename := "x.png", success := false,
          message := some ("AI Error: " ++ "boom"), writerCalledWith := none } :=
  ⟨rfl, (C1_worker_stage_composition "x.png" (none, some "boom") (true, "Success")).1 rfl⟩

/-- C3: whenever `get_tags_from_gemini` returns (for any remote behaviour
and any exception raised during configure, upload, polling, or
generation), the result is either `(some tags, none)` or
`(none, some error)`: every exception is converted into an error string
at the boundary, with no retry and no backoff. -/
theorem C3_generator_result_shape (env : GeminiEnv) (fuel : Nat)
    (r : Option String × Option String)
    (h : get_tags_from_gemini env fuel = some r) :
    (∃ t, r = (some t, none)) ∨ (∃ e, r = (none, some e)) := by
  unfold get_tags_from_gemini at h
  split at h
  · cases h; exact Or.inr ⟨_, rfl⟩
  · split at h
    · cases h; exact Or.inr ⟨_, rfl⟩
    · split at h
      · cases h
      · cases h; exact Or.inr ⟨_, rfl⟩
      · split at h
        · cases h; exact Or.inr ⟨_, rfl⟩
        · split at h
          · cases h; exact Or.inr ⟨_, rfl⟩
          · cases h; exact Or.inl ⟨_, rfl⟩

/-- Closed instance of C3 at a concrete environment whose upload finishes
immediately and whose generation succeeds. -/
theorem C3_witness :
    get_tags_from_gemini
        { configResult := .ok (), uploadResult := .ok "ACTIVE",
          getFileResult := fun _ => .ok "ACTIVE",
          generateResult := .ok " cat, dog " } 0
      = some (some "cat, dog", none)
    ∧ ((∃ t, ((some "cat, dog" : Option String), (none : Option String)) = (some t, none))
        ∨ (∃ e, ((some "cat, dog" : Option String), (none : Option String)) = (none, some e))) :=
  ⟨rfl,
   C3_generator_result_shape
     { configResult := .ok (), uploadResult := .ok "ACTIVE",
       getFileResult := fun _ => .ok "ACTIVE",
       generateResult := .ok " cat, dog " } 0 (some "cat, dog", none) rfl⟩

/-- C4: for both the write-mode and the clear-mode invocation of the
external tool, exit code 0 yields a success result and any non-zero exit
code yields a failure carrying the tool's stderr; in clear mode a zero
exit additionally surfaces the tool's raw stdout verbatim as the success
message. -/
theorem C4_exit_code_contract (wenv : WriteEnv) (cenv : ClearEnv)
    (p file_path tags folder : String) (r : ProcResult) :
    (wenv.tempCreated = .ok p → wenv.writeOk = .ok () → wenv.runResult = .ok r →
      (r.returncode = 0 →
        (write_tags_securely wenv file_path tags).result = (true, "Success"))
      ∧ (r.returncode ≠ 0 →
        (write_tags_securely wenv file_path tags).result = (false, r.stderr)))
    ∧ (cenv.runResult = .ok r →
      (r.returncode = 0 → remove_all_tags_in_folder cenv folder = (true, r.stdout))
      ∧ (r.returncode ≠ 0 → remove_all_tags_in_folder cenv folder = (false, r.stderr))) := by
  constructor
  · intro h1 h2 h3
    constructor <;> intro hr <;> simp [write_tags_securely, h1, h2, h3, hr]
  · intro h1
    constructor <;> intro hr <;> simp [remove_all_tags_in_folder, h1, hr]

/-- Closed instance of C4: the clear-mode stub reporting
`3 image files updated` with exit code 0 surfaces that exact string, and a
zero exit in write mode reports success. -/
theorem C4_witness :
    remove_all_tags_in_folder
        { runResult := .ok ⟨0, "3 image files updated", ""⟩ } "/photos"
      = (true, "3 image files updated")
    ∧ (write_tags_securely
        { tempCreated := .ok "/tmp/args", writeOk := .ok (),
          runResult := .ok ⟨0, "3 image files updated", ""⟩,
          tempExists := true, removeOk := true } "/photos/a.jpg" "cat").result
      = (true, "Success") :=
  ⟨((C4_exit_code_contract
      { tempCreated := .ok "/tmp/args", writeOk := .ok (),
        runResult := .ok ⟨0, "3 image files updated", ""⟩,
        tempExists := true, removeOk := true }
      { runResult := .ok ⟨0, "3 image files updated", ""⟩ }
      "/tmp/args" "/photos/a.jpg" "cat" "/photos"
      ⟨0, "3 image files updated", ""⟩).2 rfl).1 rfl,
   ((C4_exit_code_contract
      { tempCreated := .ok "/tmp/args", writeOk := .ok (),
        runResult := .ok ⟨0, "3 image files updated", ""⟩,
        tempExists := true, removeOk := true }
      { runResult := .ok ⟨0, "3 image files updated", ""⟩ }
      "/tmp/args" "/photos/a.jpg" "cat" "/photos"
      ⟨0, "3 image files updated", ""⟩).1 rfl rfl rfl).1 rfl⟩

/-- C5: a directory entry is dispatched if and only if it is in the
non-recursive folder listing and its name, lowercased, ends with one of
exactly `.jpg`, `.jpeg`, `.png`, `.gif`, `.mp4`; the spec's example folder
`a.jpg, b.txt, c.mp4` dispatches only `a.jpg` and `c.mp4`, and the
contents of a subfolder are never dispatched. -/
theorem C5_extension_filter (entries : List FsEntry) (n : String) :
    (eligible n = true ↔
      (pyEndsWith (pyLower n) ".jpg" = true ∨ pyEndsWith (pyLower n) ".jpeg" = true ∨
       pyEndsWith (pyLower n) ".png" = true ∨ pyEndsWith (pyLower n) ".gif" = true ∨
       pyEndsWith (pyLower n) ".mp4" = true))
    ∧ (n ∈ dispatchedNames entries ↔ n ∈ listdir entries ∧ eligible n = true)
    ∧ dispatchedNames [FsEntry.file "a.jpg", FsEntry.file "b.txt", FsEntry.file "c.mp4"]
        = ["a.jpg", "c.mp4"]
    ∧ dispatchedNames [FsEntry.dir "sub" [FsEntry.file "deep.jpg"]] = [] := by
  refine ⟨?_, ?_, ?_, ?_⟩
  · simp [eligible, extensions]
  · simp [dispatchedNames, List.mem_filter]
  · rfl
  · rfl

/-- Closed instance of C5: an upper-case `.JPG` name is dispatched from a
singleton folder listing. -/
theorem C5_witness :
    "photo.JPG" ∈ dispatchedNames [FsEntry.file "photo.JPG"] :=
  ((C5_extension_filter [FsEntry.file "photo.JPG"] "photo.JPG").2.1).mpr
    ⟨List.mem_singleton.mpr rfl, rfl⟩

/-- C6: the batch produces exactly one outcome per dispatched file, the
outcome of the i-th file is exactly its own worker result (independent of
every other file's success or failure), and extending the batch with a
further file leaves all earlier outcomes unchanged — no failure aborts
the batch and nothing is rolled back. -/
theorem C6_batch_isolation (worker : String → WorkerResult) (files : List String)
    (g : String) :
    (runBatch worker files).length = files.length
    ∧ (∀ i (h : i < files.length),
        (runBatch worker files).get ⟨i, by simpa [runBatch] using h⟩
          = worker (files.get ⟨i, h⟩))
    ∧ runBatch worker (files ++ [g]) = runBatch worker files ++ [worker g] := by
  refine ⟨by simp [runBatch], fun i h => ?_, by simp [runBatch]⟩
  simp [runBatch]

/-- Closed instance of C6: in a two-file batch whose second file fails,
the first file's outcome is its own worker result, untouched. -/
theorem C6_witness :
    (runBatch
        (fun f => process_single_file f
          (if f = "a.jpg" then (some "cat", none) else (none, some "boom"))
          (true, "Success"))
        ["a.jpg", "b.png"]).get ⟨0, by simp [runBatch]⟩
      = process_single_file "a.jpg" (some "cat", none) (true, "Success") :=
  (C6_batch_isolation
      (fun f => process_single_file f
        (if f = "a.jpg" then (some "cat", none) else (none, some "boom"))
        (true, "Success"))
      ["a.jpg", "b.png"] "c.gif").2.1 0 (by simp)

/-- C10: eligibility is decided by name suffix alone, with no check that
the entry is a regular file: the bare name `.jpg` is eligible, any
subdirectory whose eligible-suffixed name appears in the listing is
dispatched, and concretely a folder holding a subdirectory `album.jpg`
and a hidden entry `.jpg` dispatches both. -/
theorem C10_suffix_only_eligibility (entries : List FsEntry) (n : String)
    (children : List FsEntry) :
    eligible ".jpg" = true
    ∧ (FsEntry.dir n children ∈ entries → eligible n = true →
        n ∈ dispatchedNames entries)
    ∧ dispatchedNames [FsEntry.dir "album.jpg" [], FsEntry.file ".jpg"]
        = ["album.jpg", ".jpg"] := by
  refine ⟨rfl, fun hmem helig => ?_, rfl⟩
  refine List.mem_filter.mpr ⟨?_, helig⟩
  exact List.mem_map.mpr ⟨FsEntry.dir n children, hmem, rfl⟩

/-- Closed instance of C10: a subdirectory named `x.mp4` is dispatched. -/
theorem C10_witness :
    "x.mp4" ∈ dispatchedNames [FsEntry.dir "x.mp4" []] :=
  (C10_suffix_only_eligibility [FsEntry.dir "x.mp4" []] "x.mp4" []).2.1
    (List.mem_singleton.mpr rfl) rfl

/-- When every re-poll keeps reporting `PROCESSING`, the polling loop
never exits, whatever fuel it is given. -/
theorem pollLoop_all_processing (env : GeminiEnv)
    (hall : ∀ i, env.getFileResult i = .ok "PROCESSING") :
    ∀ fuel i, pollLoop env i "PROCESSING" fuel = none := by
  intro fuel
  induction fuel with
  | zero => intro i; rfl
  | succ n ih =>
    intro i
    simp only [pollLoop, hall i]
    exact ih (i + 1)

/-- Every sleep issued by the polling loop lasts exactly one second. -/
theorem sleepTrace_all_ones (env : GeminiEnv) :
    ∀ fuel i st d, d ∈ sleepTrace env i st fuel → d = 1 := by
  intro fuel
  induction fuel with
  | zero =>
    intro i st d hd
    simp [sleepTrace] at hd
  | succ n ih =>
    intro i st d hd
    simp only [sleepTrace] at hd
    split at hd
    · cases hg : env.getFileResult i with
      | error e =>
        rw [hg] at hd
        simpa using hd
      | ok st2 =>
        rw [hg] at hd
        rcases List.mem_cons.mp hd with h1 | h2
        · exact h1
        · exact ih (i + 1) st2 d h2
    · cases hd

/-- C7: the Tag Generator polls at a fixed one-second interval with no
retry bound and no deadline: when the remote service reports `PROCESSING`
forever the function never returns (for every fuel bound the loop is
still running), every sleep in the polling trace is exactly 1 second, and
when the loop does exit cleanly (with generation well-defined) the
`Upload processing failed` error is reported exactly when the final state
is `FAILED`. -/
theorem C7_unbounded_polling (env : GeminiEnv) (fuel : Nat) :
    ((env.configResult = .ok () ∧ env.uploadResult = .ok "PROCESSING"
        ∧ ∀ i, env.getFileResult i = .ok "PROCESSING") →
      get_tags_from_gemini env fuel = none)
    ∧ (∀ i st d, d ∈ sleepTrace env i st fuel → d = 1)
    ∧ (∀ st0 finalSt text, env.configResult = .ok () →
        env.uploadResult = .ok st0 →
        pollLoop env 0 st0 fuel = some (.ok finalSt) →
        env.generateResult = .ok text →
        (get_tags_from_gemini env fuel = some (none, some "Upload processing failed")
          ↔ finalSt = "FAILED")) := by
  refine ⟨fun ⟨hc, hu, hall⟩ => ?_,
    fun i st d hd => sleepTrace_all_ones env fuel i st d hd,
    fun st0 finalSt text hc hu hp hg => ?_⟩
  · simp [get_tags_from_gemini, hc, hu, pollLoop_all_processing env hall fuel 0]
  · by_cases hf : finalSt = "FAILED" <;>
      simp [get_tags_from_gemini, hc, hu, hp, hg, hf]

/-- Environment in which the remote service reports `PROCESSING`
forever. -/
def allProcessingEnv : GeminiEnv :=
  { configResult := .ok (), uploadResult := .ok "PROCESSING",
    getFileResult := fun _ => .ok "PROCESSING", generateResult := .ok "x" }

/-- Environment in which the upload immediately reaches `FAILED`. -/
def failedUploadEnv : GeminiEnv :=
  { configResult := .ok (), uploadResult := .ok "FAILED",
    getFileResult := fun _ => .ok "FAILED", generateResult := .ok "x" }

/-- Closed instance of C7: under a permanently-processing service the
generator has not returned after 7 iterations, and a `FAILED` upload
reports the upload error. -/
theorem C7_witness :
    get_tags_from_gemini allProcessingEnv 7 = none
    ∧ get_tags_from_gemini failedUploadEnv 3
        = some (none, some "Upload processing failed") :=
  ⟨(C7_unbounded_polling allProcessingEnv 7).1 ⟨rfl, rfl, fun _ => rfl⟩,
   ((C7_unbounded_polling failedUploadEnv 3).2.2 "FAILED" "FAILED" "x"
      rfl rfl rfl rfl).mpr rfl⟩

/-- C8 counterexample: when the temporary file is created but one of the
directive writes then raises (e.g. a full disk), `args_file_path` is never
assigned, so the `finally` block skips `os.remove` even though the file
was created: removal is not attempted after every creation. -/
theorem C8_counterexample :
    (write_tags_securely
        { tempCreated := .ok "/tmp/args7",
          writeOk := .error "No space left on device",
          runResult := .ok ⟨0, "", ""⟩, tempExists := true, removeOk := true }
        "a.jpg" "cat").fileCreated = true
    ∧ (write_tags_securely
        { tempCreated := .ok "/tmp/args7",
          writeOk := .error "No space left on device",
          runResult := .ok ⟨0, "", ""⟩, tempExists := true, removeOk := true }
        "a.jpg" "cat").removeAttempted = false
    ∧ (write_tags_securely
        { tempCreated := .ok "/tmp/args7",
          writeOk := .error "No space left on device",
          runResult := .ok ⟨0, "", ""⟩, tempExists := true, removeOk := true }
        "a.jpg" "cat").result = (false, "No space left on device") :=
  ⟨rfl, rfl, rfl⟩

/-- C8 (amended): removal of the temporary instruction file is attempted
afterward whenever `args_file_path` was assigned (file created and all
directive writes completed) and the file still exists at cleanup time,
in every outcome of the tool invocation (success, non-zero exit, or
exception); a failure of the deletion itself is swallowed and never
changes the returned result; and when the file was never created no
removal is attempted.  If an exception strikes between creation and the
assignment of `args_file_path`, the file is leaked. -/
theorem C8_cleanup_best_effort (env : WriteEnv) (file_path tags p : String) :
    (env.tempCreated = .ok p → env.writeOk = .ok () → env.tempExists = true →
      (write_tags_securely env file_path tags).removeAttempted = true)
    ∧ (∀ b, (write_tags_securely { env with removeOk := b } file_path tags).result
        = (write_tags_securely env file_path tags).result)
    ∧ ((write_tags_securely env file_path tags).fileCreated = false →
      (write_tags_securely env file_path tags).removeAttempted = false) := by
  obtain ⟨tc, wo, rr, te, ro⟩ := env
  refine ⟨fun h1 h2 h3 => ?_, fun b => ?_, fun h => ?_⟩
  · simp only at h1 h2 h3
    subst h1; subst h2; subst h3
    cases rr <;> rfl
  · cases tc <;> cases wo <;> cases rr <;> rfl
  · cases tc with
    | error e => cases wo <;> cases rr <;> rfl
    | ok q =>
      exfalso
      cases wo <;> cases rr <;> simp [write_tags_securely] at h

/-- Closed instance of the amended C8 theorem: with creation, writes and
the tool run all succeeding, removal of the instruction file is
attempted, and flipping the deletion outcome leaves the result intact. -/
theorem C8_witness :
    (write_tags_securely
        { tempCreated := .ok "/tmp/args8", writeOk := .ok (),
          runResult := .ok ⟨1, "", "bad file"⟩, tempExists := true,
          removeOk := false } "b.png" "dog").removeAttempted = true :=
  (C8_cleanup_best_effort
    { tempCreated := .ok "/tmp/args8", writeOk := .ok (),
      runResult := .ok ⟨1, "", "bad file"⟩, tempExists := true,
      removeOk := false } "b.png" "dog" "/tmp/args8").1 rfl rfl rfl

/-- `logs.insert(0, msg)` repeated from the empty list builds the reverse
of the message sequence: newest first. -/
theorem logsAfter_eq_reverse (msgs : List String) :
    logsAfter msgs = msgs.reverse := by
  have key : ∀ acc : List String,
      msgs.foldl (fun logs m => m :: logs) acc = msgs.reverse ++ acc := by
    induction msgs with
    | nil => intro acc; simp
    | cons m ms ih => intro acc; simp [List.foldl, ih]
  have h0 := key []
  simp only [List.append_nil] at h0
  exact h0

/-- C9 counterexample: after 21 completed outcomes the in-memory `logs`
list holds 21 entries — it is never truncated to 20; only the rendered
text is. -/
theorem C9_counterexample :
    (logsAfter (List.replicate 21 "msg")).length = 21
    ∧ ¬ (logsAfter (List.replicate 21 "msg")).length ≤ 20 := by
  constructor <;> simp [logsAfter_eq_reverse]

/-- C9 (amended): the in-memory outcome log is ordered newest-first (each
new outcome is inserted at the front) but is itself unbounded, holding
one entry per completed outcome; it is only the rendered log text that is
capped at the 20 most recent entries. -/
theorem C9_log_newest_first (msgs : List String) (m : String) :
    logsAfter (msgs ++ [m]) = m :: logsAfter msgs
    ∧ (logsAfter msgs).length = msgs.length
    ∧ ((logsAfter msgs).take 20).length ≤ 20
    ∧ displayedLog (logsAfter msgs)
        = String.intercalate "\n" (msgs.reverse.take 20) := by
  refine ⟨?_, ?_, ?_, ?_⟩
  · simp [logsAfter_eq_reverse]
  · simp [logsAfter_eq_reverse]
  · simp [logsAfter_eq_reverse, List.length_take]
  · simp [logsAfter_eq_reverse, displayedLog]

end AutoTagger
